import Mathlib

/-!
Verification of the REST-backed storage module (`rest.go`): a shallow
embedding of its transport layer, KV operations, lock manager and Caddyfile
unmarshalling, together with theorems settling the specified properties.

Conventions of the embedding:
- machine bytes are `Nat` values with an explicit `< 256` bound where it
  matters;
- a Go `error` result is an `Except String` value; Go's `fs.ErrNotExist`
  sentinel and the `fmt.Errorf` unknown-status errors become distinct
  constructors of `RestError`;
- the network is abstracted by the scripted outcome of each exchange: a
  transport-level failure or an HTTP response (status code plus the result of
  decoding the body, since JSON decoding is the standard library's);
- each Go storage method is split like the source itself: a request builder
  (the struct literal passed to `client`) and a response interpreter (the
  status-code dispatch that follows the `client` call).
-/

set_option autoImplicit false

namespace RestStorage

/-- Error taxonomy of the storage client.  `transport` models an error value
returned by `http.Client.Do` or `json.Marshal`; `notFound` models the
`fs.ErrNotExist` sentinel; `unknownStatus` models the
`fmt.Errorf("unknown status code received: %v", code)` values, carrying the
numeric code; `decode` models JSON / base64 / timestamp decode errors
returned verbatim. -/
inductive RestError where
  | transport (msg : String)
  | notFound
  | unknownStatus (code : Nat)
  | decode (msg : String)
deriving DecidableEq

/-- An HTTP response as the storage methods see it: the status code and the
body.  The body type is instantiated per operation with the outcome of
decoding it (`Except` for JSON decoding, `Unit` when the body is unused). -/
structure RestResponse (β : Type) where
  statusCode : Nat
  body : β
deriving DecidableEq

/-- Outcome of one `client` call in `rest.go`.  `resp` is a delivered
response, `err` a returned Go error, and `panicked` a runtime panic: the
source ignores the error returned by `http.NewRequestWithContext` and then
calls `req.Header.Add` on the request, which in Go dereferences a nil
pointer when request construction failed. -/
inductive ClientOutcome (ρ : Type) where
  | resp (r : ρ)
  | err (msg : String)
  | panicked
deriving DecidableEq

/-- Embedding of `RestStorage.client` (rest.go lines 31-45) over the outcomes
of its three effectful steps: `json.Marshal` of the payload,
`http.NewRequestWithContext`, and `httpClient.Do`.  A marshal error is
returned; a request-construction error is ignored by the source, after which
`req.Header.Add` panics on the nil request; a `Do` error is returned;
otherwise the raw response is returned. -/
def restClient {ρ : Type} (marshalResult : Except String Unit)
    (newRequestResult : Except String Unit)
    (doResult : Except String ρ) : ClientOutcome ρ :=
  match marshalResult with
  | .error e => .err e
  | .ok _ =>
    match newRequestResult with
    | .error _ => .panicked
    | .ok _ =>
      match doResult with
      | .error e => .err e
      | .ok r => .resp r

/-- The request body sent by `Lock`: `LockRequest{Key: key}`. -/
structure LockRequest where
  Key : String
deriving DecidableEq

/-- One scripted reply of the remote to a Lock request: a transport-level
error from `client`, or an HTTP status code (the Lock loop never reads the
body). -/
inductive LockReply where
  | err (msg : String)
  | status (code : Nat)
deriving DecidableEq

/-- Result of a `Lock` call.  `ok` is successful acquisition (return nil);
`transportError` surfaces a `client` error verbatim; `unknownStatus` is the
`fmt.Errorf("Unknown status code received: %v", code)` return; `exhausted`
means the reply script ran out while the loop was still attempting. -/
inductive LockOutcome where
  | ok
  | transportError (msg : String)
  | unknownStatus (code : Nat)
  | exhausted
deriving DecidableEq

/-- Embedding of `RestStorage.Lock` (rest.go lines 108-137) as a function of
the scripted remote replies.  Returns the outcome, the list of Lock requests
issued (one `LockRequest{Key: key}` per loop iteration), and the total
seconds slept (`time.Sleep(5 * time.Second)` after each 423 or 412, before
the next iteration). -/
def lockLoop (key : String) : List LockReply → LockOutcome × List LockRequest × Nat
  | [] => (.exhausted, [], 0)
  | .err m :: _ => (.transportError m, [⟨key⟩], 0)
  | .status c :: rest =>
    if c = 201 then
      (.ok, [⟨key⟩], 0)
    else if c = 423 then
      ((lockLoop key rest).1, ⟨key⟩ :: (lockLoop key rest).2.1, (lockLoop key rest).2.2 + 5)
    else if c = 412 then
      ((lockLoop key rest).1, ⟨key⟩ :: (lockLoop key rest).2.1, (lockLoop key rest).2.2 + 5)
    else
      (.unknownStatus c, [⟨key⟩], 0)

/-- The standard base64 alphabet used by Go's `base64.StdEncoding`. -/
def b64Alphabet : List Char :=
  ("ABCDEFGHIJKLMNOPQRSTUVWXYZabcdefghijklmnopqrstuvwxyz0123456789+/").data

/-- The character that encodes the 6-bit value `i` (for `i < 64`). -/
def encodeSextet (i : Nat) : Char :=
  b64Alphabet.getD i ('A')

/-- Inverse of the alphabet: the 6-bit value of a base64 character, or
`none` for a character outside the alphabet (including the pad). -/
def decodeSextet (c : Char) : Option Nat :=
  if b64Alphabet.indexOf c < 64 then some (b64Alphabet.indexOf c) else none

/-- Embedding of `base64.StdEncoding.EncodeToString`: each group of three
bytes becomes four alphabet characters; a trailing group of two bytes becomes
three characters and one pad, a trailing single byte two characters and two
pads. -/
def b64Encode : List Nat → List Char
  | [] => []
  | [b0] =>
    let n := b0 * 65536
    [encodeSextet (n / 262144 % 64), encodeSextet (n / 4096 % 64), ('='), ('=')]
  | [b0, b1] =>
    let n := b0 * 65536 + b1 * 256
    [encodeSextet (n / 262144 % 64), encodeSextet (n / 4096 % 64),
     encodeSextet (n / 64 % 64), ('=')]
  | b0 :: b1 :: b2 :: rest =>
    let n := b0 * 65536 + b1 * 256 + b2
    encodeSextet (n / 262144 % 64) :: encodeSextet (n / 4096 % 64) ::
      encodeSextet (n / 64 % 64) :: encodeSextet (n % 64) :: b64Encode rest

/-- Embedding of `base64.StdEncoding.DecodeString`: the input must be a
sequence of four-character quanta; a quantum may end in one or two pads only
if it is the last one; a character outside the alphabet (or a pad in the
first two positions) is a corrupt-input error, modelled as `none`.  Like
Go's non-strict decoder, trailing bits beyond the encoded bytes are
discarded. -/
def b64Decode : List Char → Option (List Nat)
  | [] => some []
  | c0 :: c1 :: c2 :: c3 :: rest =>
    match decodeSextet c0, decodeSextet c1 with
    | some s0, some s1 =>
      if c2 = ('=') then
        if c3 = ('=') ∧ rest = [] then
          some [(s0 * 262144 + s1 * 4096) / 65536 % 256]
        else none
      else
        match decodeSextet c2 with
        | some s2 =>
          if c3 = ('=') then
            if rest = [] then
              let n := s0 * 262144 + s1 * 4096 + s2 * 64
              some [n / 65536 % 256, n / 256 % 256]
            else none
          else
            match decodeSextet c3 with
            | some s3 =>
              match b64Decode rest with
              | some tail =>
                let n := s0 * 262144 + s1 * 4096 + s2 * 64 + s3
                some (n / 65536 % 256 :: n / 256 % 256 :: n % 256 :: tail)
              | none => none
            | none => none
        | none => none
    | _, _ => none
  | _ => none

/-- The request body sent by `Store`: key plus the base64-encoded value. -/
structure StoreRequest where
  Key : String
  Value : String
deriving DecidableEq

/-- The request struct built by `RestStorage.Store` (rest.go lines 166-171):
the value bytes are encoded with `base64.StdEncoding.EncodeToString`. -/
def restStoreRequest (key : String) (value : List Nat) : StoreRequest :=
  { Key := key, Value := String.mk (b64Encode value) }

/-- Status-code dispatch of `RestStorage.Store` (rest.go lines 166-184) on
the outcome of its single `client` call: a transport error is returned
verbatim; any status other than 201 is an unknown-status error carrying the
code; 201 is success. -/
def restStore (resp : Except String (RestResponse Unit)) : Except RestError Unit :=
  match resp with
  | .error e => .error (.transport e)
  | .ok r => if r.statusCode ≠ 201 then .error (.unknownStatus r.statusCode) else .ok ()

/-- The decoded JSON body of a `Load` response. -/
structure LoadResponse where
  Value : String
deriving DecidableEq

/-- Embedding of `RestStorage.Load` (rest.go lines 194-228) on the outcome of
its single `client` call.  The body field is the outcome of the JSON decode,
consulted only on status 200; afterwards the transported text is decoded
with `base64.StdEncoding.DecodeString`. -/
def restLoad (resp : Except String (RestResponse (Except String LoadResponse))) :
    Except RestError (List Nat) :=
  match resp with
  | .error e => .error (.transport e)
  | .ok r =>
    if r.statusCode = 404 then .error .notFound
    else if r.statusCode ≠ 200 then .error (.unknownStatus r.statusCode)
    else
      match r.body with
      | .error e => .error (.decode e)
      | .ok lr =>
        match b64Decode lr.Value.data with
        | none => .error (.decode ("illegal base64 data"))
        | some bytes => .ok bytes

/-- Embedding of `RestStorage.Delete` (rest.go lines 234-254): 404 is the
not-found sentinel, 204 success, anything else an unknown-status error. -/
def restDelete (resp : Except String (RestResponse Unit)) : Except RestError Unit :=
  match resp with
  | .error e => .error (.transport e)
  | .ok r =>
    if r.statusCode = 404 then .error .notFound
    else if r.statusCode ≠ 204 then .error (.unknownStatus r.statusCode)
    else .ok ()

/-- The decoded JSON body of an `Exists` response. -/
structure ExistsResponse where
  Exists : Bool
deriving DecidableEq

/-- Embedding of `RestStorage.Exists` (rest.go lines 264-288): a transport
error, any non-200 status, and a body decode failure all yield `false`; on
200 with a well-formed body the remote's boolean is returned. -/
def restExists (resp : Except String (RestResponse (Except String ExistsResponse))) : Bool :=
  match resp with
  | .error _ => false
  | .ok r =>
    if r.statusCode ≠ 200 then false
    else
      match r.body with
      | .error _ => false
      | .ok er => er.Exists

/-- The request body sent by `List`: prefix plus the recursive flag. -/
structure ListRequest where
  Prefix : String
  Recursive : Bool
deriving DecidableEq

/-- The decoded JSON body of a `List` response. -/
structure ListResponse where
  Keys : List String
deriving DecidableEq

/-- The request struct built by `RestStorage.List` (rest.go lines 300-303). -/
def restListRequest (pfx : String) (recursive : Bool) : ListRequest :=
  { Prefix := pfx, Recursive := recursive }

/-- Embedding of `RestStorage.List` (rest.go lines 299-328): 404 is the
not-found sentinel, any other non-200 an unknown-status error, and on 200
the decoded key sequence is returned as-is. -/
def restList (resp : Except String (RestResponse (Except String ListResponse))) :
    Except RestError (List String) :=
  match resp with
  | .error e => .error (.transport e)
  | .ok r =>
    if r.statusCode = 404 then .error .notFound
    else if r.statusCode ≠ 200 then .error (.unknownStatus r.statusCode)
    else
      match r.body with
      | .error e => .error (.decode e)
      | .ok lr => .ok lr.Keys

/-- A parsed RFC3339 timestamp: calendar fields, fractional-second digits as
a natural number, and the zone offset in minutes east of UTC. -/
structure Rfc3339Time where
  year : Nat
  month : Nat
  day : Nat
  hour : Nat
  minute : Nat
  second : Nat
  frac : Nat
  offsetMinutes : Int
deriving DecidableEq

/-- The numeric value of a decimal digit character, `none` otherwise. -/
def digitVal (c : Char) : Option Nat :=
  if c.isDigit then some (c.toNat - 48) else none

/-- Read exactly `k` decimal digits, extending the accumulator. -/
def readFixed : Nat → Nat → List Char → Option (Nat × List Char)
  | 0, acc, cs => some (acc, cs)
  | k + 1, acc, c :: cs =>
    match digitVal c with
    | some d => readFixed k (acc * 10 + d) cs
    | none => none
  | _ + 1, _, [] => none

/-- Consume one expected literal character. -/
def expectChar (c : Char) : List Char → Option (List Char)
  | x :: rest => if x = c then some rest else none
  | [] => none

/-- Greedily consume decimal digits, returning their value, their count and
the remainder. -/
def takeDigits : Nat → Nat → List Char → Nat × Nat × List Char
  | acc, count, c :: cs =>
    match digitVal c with
    | some d => takeDigits (acc * 10 + d) (count + 1) cs
    | none => (acc, count, c :: cs)
  | acc, count, [] => (acc, count, [])

/-- An optional fractional-second part: a dot followed by at least one
digit; absent is frac 0. -/
def readFrac : List Char → Option (Nat × List Char)
  | ('.') :: rest =>
    match takeDigits 0 0 rest with
    | (n, count, rest2) => if count = 0 then none else some (n, rest2)
  | cs => some (0, cs)

/-- The zone part of an RFC3339 timestamp: the literal Z, or a signed
HH:MM offset with in-range fields. -/
def readOffset : List Char → Option (Int × List Char)
  | ('Z') :: rest => some (0, rest)
  | ('+') :: rest =>
    match readFixed 2 0 rest with
    | some (hh, r1) =>
      match expectChar (':') r1 with
      | some r2 =>
        match readFixed 2 0 r2 with
        | some (mm, r3) =>
          if hh ≤ 23 ∧ mm ≤ 59 then some (((hh * 60 + mm : Nat) : Int), r3) else none
        | none => none
      | none => none
    | none => none
  | ('-') :: rest =>
    match readFixed 2 0 rest with
    | some (hh, r1) =>
      match expectChar (':') r1 with
      | some r2 =>
        match readFixed 2 0 r2 with
        | some (mm, r3) =>
          if hh ≤ 23 ∧ mm ≤ 59 then some (-(((hh * 60 + mm : Nat) : Int)), r3) else none
        | none => none
      | none => none
    | none => none
  | _ => none

/-- Layout parsing for `time.Parse(time.RFC3339, s)`:
YYYY-MM-DDTHH:MM:SS, optional fraction, then Z or a signed offset, with
range checks on the calendar fields (the day-of-month upper bound is
approximated as 31 for every month; only the success/failure split is used
by the theorems below) and nothing permitted after the zone. -/
def parseRFC3339Core (cs : List Char) : Option Rfc3339Time := do
  let (year, r1) ← readFixed 4 0 cs
  let r2 ← expectChar ('-') r1
  let (month, r3) ← readFixed 2 0 r2
  let r4 ← expectChar ('-') r3
  let (day, r5) ← readFixed 2 0 r4
  let r6 ← expectChar ('T') r5
  let (hour, r7) ← readFixed 2 0 r6
  let r8 ← expectChar (':') r7
  let (minute, r9) ← readFixed 2 0 r8
  let r10 ← expectChar (':') r9
  let (second, r11) ← readFixed 2 0 r10
  let (frac, r12) ← readFrac r11
  let (off, r13) ← readOffset r12
  if 1 ≤ month ∧ month ≤ 12 ∧ 1 ≤ day ∧ day ≤ 31 ∧ hour ≤ 23 ∧ minute ≤ 59 ∧
      second ≤ 59 ∧ r13 = [] then
    some ⟨year, month, day, hour, minute, second, frac, off⟩
  else none

/-- Go's `time.Parse(time.RFC3339, s)`, as the Go error/value split: an
unparsable string yields an error value rather than a defaulted zero time. -/
def timeParseRFC3339 (s : String) : Except String Rfc3339Time :=
  match parseRFC3339Core s.data with
  | some t => .ok t
  | none => .error ("parsing time " ++ s ++ " as RFC3339: cannot parse")

/-- The decoded JSON body of a `Stat` response (before timestamp parsing). -/
structure StatResponse where
  Key : String
  Modified : String
  Size : Int
  IsTerminal : Bool
deriving DecidableEq

/-- The `certmagic.KeyInfo` value built by a successful `Stat`. -/
structure KeyInfo where
  Key : String
  Modified : Rfc3339Time
  Size : Int
  IsTerminal : Bool
deriving DecidableEq

/-- Embedding of `RestStorage.Stat` (rest.go lines 341-384): 404 is the
not-found sentinel, any other non-200 an unknown-status error; on 200 the
body is JSON-decoded and the `modified` field parsed as RFC3339, each
failure being returned as an error rather than a defaulted `KeyInfo`. -/
def restStat (resp : Except String (RestResponse (Except String StatResponse))) :
    Except RestError KeyInfo :=
  match resp with
  | .error e => .error (.transport e)
  | .ok r =>
    if r.statusCode = 404 then .error .notFound
    else if r.statusCode ≠ 200 then .error (.unknownStatus r.statusCode)
    else
      match r.body with
      | .error e => .error (.decode e)
      | .ok sr =>
        match timeParseRFC3339 sr.Modified with
        | .error e => .error (.decode e)
        | .ok t => .ok ⟨sr.Key, t, sr.Size, sr.IsTerminal⟩

/-- A straight-line operation run against a scripted remote: it consumes
exactly the first scripted exchange — its result depends on no later entry —
and reports that exactly one request was issued.  `none` means the script
provided no response for the single request. -/
def runOnce {α β : Type} (f : α → β) : List α → Option (β × Nat)
  | [] => none
  | a :: _ => some (f a, 1)

/-- The two configurable fields of the `RestStorage` struct. -/
structure StorageConfig where
  Endpoint : String
  ApiKey : String
deriving DecidableEq

/-- One arm of the `switch key` statement in `UnmarshalCaddyfile` (rest.go
lines 87-94).  Go switch cases do not fall through: the case bodies for
both the all-lowercase spelling and the lowerCamel spelling are empty, so
only the UpperCamel spelling assigns `ApiKey`, and only the endpoint key
assigns `Endpoint`; every other key changes nothing. -/
def unmarshalToken (r : StorageConfig) (key value : String) : StorageConfig :=
  if key = "endpoint" then { r with Endpoint := value }
  else if key = "apikey" then r
  else if key = "apiKey" then r
  else if key = "ApiKey" then { r with ApiKey := value }
  else r

/-- Embedding of `RestStorage.UnmarshalCaddyfile` (rest.go lines 77-98).
The dispenser's token stream is modelled as a list of directive keys each
with its optional single argument: when `d.Args` yields no argument the
iteration continues without touching any field.  The function always
returns a nil error, modelled as the constantly-`none` second component. -/
def unmarshalCaddyfile (r : StorageConfig) :
    List (String × Option String) → StorageConfig × Option String
  | [] => (r, none)
  | (_, none) :: rest => unmarshalCaddyfile r rest
  | (k, some v) :: rest => unmarshalCaddyfile (unmarshalToken r k v) rest

end RestStorage

namespace RestStorage

example : lockLoop ("k") [.status 423, .status 412, .status 201] =
    (.ok, [⟨"k"⟩, ⟨"k"⟩, ⟨"k"⟩], 10) := by decide

example : lockLoop ("k") [.status 500] = (.unknownStatus 500, [⟨"k"⟩], 0) := by decide

example : lockLoop ("k") [.err ("boom"), .status 201] =
    (.transportError ("boom"), [⟨"k"⟩], 0) := by decide

example : b64Encode [77, 97, 110] = ("TWFu").data := by decide

example : b64Encode [77, 97] = ("TWE=").data := by decide

example : b64Encode [77] = ("TQ==").data := by decide

example : b64Decode (("TWFu").data) = some [77, 97, 110] := by decide

example : b64Decode (("TQ==").data) = some [77] := by decide

example : b64Decode (("T!==").data) = none := by decide

example : b64Decode (b64Encode [0, 255, 10, 128]) = some [0, 255, 10, 128] := by decide

example : timeParseRFC3339 ("2024-01-02T03:04:05Z") =
    .ok ⟨2024, 1, 2, 3, 4, 5, 0, 0⟩ := rfl

example : timeParseRFC3339 ("2024-01-02T03:04:05.25+05:30") =
    .ok ⟨2024, 1, 2, 3, 4, 5, 25, 330⟩ := rfl

example : (timeParseRFC3339 ("not-a-time")).isOk = false := by decide

example : (timeParseRFC3339 ("2024-13-02T03:04:05Z")).isOk = false := by decide

example : (unmarshalCaddyfile ⟨"", ""⟩ [(("apiKey"), some ("s"))]).1 = ⟨"", ""⟩ := by decide

example : (unmarshalCaddyfile ⟨"", ""⟩ [(("ApiKey"), some ("s"))]).1 = ⟨"", "s"⟩ := by decide

/-- Every base64 alphabet character decodes back to the 6-bit value it
encodes. -/
theorem decode_encode_sextet : ∀ i < 64, decodeSextet (encodeSextet i) = some i := by
  decide

/-- No alphabet character is the pad character. -/
theorem encode_sextet_ne_pad : ∀ i < 64, encodeSextet i ≠ ('=') := by
  decide

/-- Round trip of the embedded Go base64 codec: decoding an encoded byte
sequence recovers it exactly, for every sequence of bytes. -/
theorem b64_decode_encode :
    ∀ (v : List Nat), (∀ b ∈ v, b < 256) → b64Decode (b64Encode v) = some v
  | [], _ => rfl
  | [b0], h => by
    have hb0 : b0 < 256 := h b0 (by simp)
    have h0 : b0 * 65536 / 262144 % 64 < 64 := Nat.mod_lt _ (by norm_num)
    have h1 : b0 * 65536 / 4096 % 64 < 64 := Nat.mod_lt _ (by norm_num)
    simp only [b64Encode, b64Decode, decode_encode_sextet _ h0,
      decode_encode_sextet _ h1]
    simp only [if_pos rfl, and_self, reduceIte]
    refine congrArg some (congrArg (fun x => [x]) ?_)
    omega
  | [b0, b1], h => by
    have hb0 : b0 < 256 := h b0 (by simp)
    have hb1 : b1 < 256 := h b1 (by simp)
    have h0 : (b0 * 65536 + b1 * 256) / 262144 % 64 < 64 := Nat.mod_lt _ (by norm_num)
    have h1 : (b0 * 65536 + b1 * 256) / 4096 % 64 < 64 := Nat.mod_lt _ (by norm_num)
    have h2 : (b0 * 65536 + b1 * 256) / 64 % 64 < 64 := Nat.mod_lt _ (by norm_num)
    simp only [b64Encode, b64Decode, decode_encode_sextet _ h0,
      decode_encode_sextet _ h1, decode_encode_sextet _ h2,
      if_neg (encode_sextet_ne_pad _ h2)]
    simp only [if_pos rfl, reduceIte]
    refine congrArg some ?_
    simp only [List.cons.injEq, and_true]
    omega
  | b0 :: b1 :: b2 :: rest, h => by
    have hb0 : b0 < 256 := h b0 (by simp)
    have hb1 : b1 < 256 := h b1 (by simp)
    have hb2 : b2 < 256 := h b2 (by simp)
    have hrest : ∀ b ∈ rest, b < 256 := fun b hb => h b (by simp [hb])
    have ih := b64_decode_encode rest hrest
    have h0 : (b0 * 65536 + b1 * 256 + b2) / 262144 % 64 < 64 :=
      Nat.mod_lt _ (by norm_num)
    have h1 : (b0 * 65536 + b1 * 256 + b2) / 4096 % 64 < 64 :=
      Nat.mod_lt _ (by norm_num)
    have h2 : (b0 * 65536 + b1 * 256 + b2) / 64 % 64 < 64 :=
      Nat.mod_lt _ (by norm_num)
    have h3 : (b0 * 65536 + b1 * 256 + b2) % 64 < 64 := Nat.mod_lt _ (by norm_num)
    simp only [b64Encode, b64Decode, decode_encode_sextet _ h0,
      decode_encode_sextet _ h1, decode_encode_sextet _ h2,
      decode_encode_sextet _ h3, if_neg (encode_sextet_ne_pad _ h2),
      if_neg (encode_sextet_ne_pad _ h3), ih]
    refine congrArg some ?_
    simp only [List.cons.injEq]
    exact ⟨by omega, by omega, by omega, trivial⟩

/-- The Lock loop on a script of `n` contention replies followed by a grant:
it acquires the lock after `n + 1` identical requests and `5 * n` seconds of
sleep, for every `n` — there is no iteration cap. -/
theorem lockLoop_replicate_contention (key : String) :
    ∀ n, lockLoop key (List.replicate n (.status 423) ++ [.status 201]) =
      (.ok, List.replicate (n + 1) ⟨key⟩, 5 * n)
  | 0 => by simp [lockLoop]
  | n + 1 => by
    have ih := lockLoop_replicate_contention key n
    rw [List.replicate_succ, List.cons_append]
    simp only [lockLoop, ih]
    norm_num [List.replicate_succ]
    omega

/-- C1: for every key and reply script, `Lock` behaves as the specified
state machine — 201 returns success immediately after one request; a
transport error is surfaced immediately; 423 and 412 each add one identical
request and a fixed 5-second sleep and continue with the rest of the script;
any other status returns an unknown-status error immediately; and `n`
contention replies before a grant are all retried, with no iteration cap. -/
theorem C1_lock_state_machine (key : String) (script : List LockReply)
    (m : String) (c : Nat) :
    lockLoop key (.status 201 :: script) = (.ok, [⟨key⟩], 0) ∧
    lockLoop key (.err m :: script) = (.transportError m, [⟨key⟩], 0) ∧
    ((c = 423 ∨ c = 412) → lockLoop key (.status c :: script) =
      ((lockLoop key script).1, ⟨key⟩ :: (lockLoop key script).2.1,
        (lockLoop key script).2.2 + 5)) ∧
    (c ≠ 201 → c ≠ 423 → c ≠ 412 →
      lockLoop key (.status c :: script) = (.unknownStatus c, [⟨key⟩], 0)) ∧
    (∀ n, lockLoop key (List.replicate n (.status 423) ++ [.status 201]) =
      (.ok, List.replicate (n + 1) ⟨key⟩, 5 * n)) := by
  refine ⟨by simp [lockLoop], rfl, ?_, ?_, lockLoop_replicate_contention key⟩
  · rintro (rfl | rfl) <;> simp [lockLoop]
  · intro h1 h2 h3
    simp [lockLoop, h1, h2, h3]

/-- Witness for C1: a contended then granted script, and an unknown status. -/
theorem C1_lock_state_machine_witness :
    lockLoop ("k") [.status 423, .status 201] =
      ((lockLoop ("k") [.status 201]).1, ⟨"k"⟩ :: (lockLoop ("k") [.status 201]).2.1,
        (lockLoop ("k") [.status 201]).2.2 + 5) ∧
    lockLoop ("k") [.status 500] = (.unknownStatus 500, [⟨"k"⟩], 0) :=
  ⟨(C1_lock_state_machine ("k") [.status 201] ("") 423).2.2.1 (Or.inl rfl),
   (C1_lock_state_machine ("k") [] ("") 500).2.2.2.1 (by decide) (by decide) (by decide)⟩

/-- C3: `Exists` never returns an error: every transport error, every
non-200 status and every body-decode failure yields `false`, and on 200
with a well-formed body the remote's boolean is returned. -/
theorem C3_exists_never_errors (m dm : String) (c : Nat)
    (b : Except String ExistsResponse) (eb : Bool) :
    restExists (.error m) = false ∧
    (c ≠ 200 → restExists (.ok ⟨c, b⟩) = false) ∧
    restExists (.ok ⟨200, .error dm⟩) = false ∧
    restExists (.ok ⟨200, .ok ⟨eb⟩⟩) = eb := by
  refine ⟨rfl, ?_, rfl, rfl⟩
  intro h
  simp [restExists, h]

/-- Witness for C3: a 500 reply makes `Exists` report `false`. -/
theorem C3_exists_never_errors_witness :
    restExists (.ok ⟨500, .ok ⟨true⟩⟩) = false :=
  (C3_exists_never_errors ("boom") ("bad json") 500 (.ok ⟨true⟩) true).2.1 (by decide)

/-- C4 (code bug): when request construction fails, `client` does not
surface the error — the source discards the error returned by
`http.NewRequestWithContext` and calls `req.Header.Add` on the nil request,
a nil-pointer panic. -/
theorem C4_client_nil_request_panics :
    restClient (Except.ok ()) (Except.error ("net/url: invalid control character in URL"))
      (Except.ok (⟨200, ()⟩ : RestResponse Unit)) = ClientOutcome.panicked := rfl

/-- C5: `Load`, `Delete`, `List` and `Stat` all map remote status 404 to the
one shared not-found sentinel (`fs.ErrNotExist` in the source), and that
sentinel is distinguishable from every transport, unknown-status and decode
error. -/
theorem C5_notfound_sentinel (bl : Except String LoadResponse)
    (bli : Except String ListResponse) (bs : Except String StatResponse)
    (m dm : String) (c : Nat) :
    restLoad (.ok ⟨404, bl⟩) = .error .notFound ∧
    restDelete (.ok ⟨404, ()⟩) = .error .notFound ∧
    restList (.ok ⟨404, bli⟩) = .error .notFound ∧
    restStat (.ok ⟨404, bs⟩) = .error .notFound ∧
    RestError.notFound ≠ .unknownStatus c ∧
    RestError.notFound ≠ .transport m ∧
    RestError.notFound ≠ .decode dm := by
  refine ⟨rfl, rfl, rfl, rfl, ?_, ?_, ?_⟩ <;> simp

/-- C6 counterexample: `Exists` is a KV operation, yet on the unmapped
status 500 it returns the boolean `false` — the same value as a confirmed
absence — and no error carrying the code 500. -/
theorem C6_counterexample :
    restExists (Except.ok ⟨500, Except.ok ⟨true⟩⟩) = false ∧
    restExists (Except.ok ⟨200, Except.ok ⟨false⟩⟩) = false :=
  ⟨rfl, rfl⟩

/-- C6 (amended): for every KV operation except `Exists`, a status outside
the operation's success/not-found set yields an unknown-status error
carrying the numeric code, with exactly one request issued and no retry; in
particular `Store` on 500 returns the error carrying 500. -/
theorem C6_unknown_status_one_shot (c : Nat) (bl : Except String LoadResponse)
    (bli : Except String ListResponse) (bs : Except String StatResponse) :
    (c ≠ 201 → restStore (.ok ⟨c, ()⟩) = .error (.unknownStatus c)) ∧
    (c ≠ 200 → c ≠ 404 → restLoad (.ok ⟨c, bl⟩) = .error (.unknownStatus c)) ∧
    (c ≠ 204 → c ≠ 404 → restDelete (.ok ⟨c, ()⟩) = .error (.unknownStatus c)) ∧
    (c ≠ 200 → c ≠ 404 → restList (.ok ⟨c, bli⟩) = .error (.unknownStatus c)) ∧
    (c ≠ 200 → c ≠ 404 → restStat (.ok ⟨c, bs⟩) = .error (.unknownStatus c)) ∧
    restStore (.ok ⟨500, ()⟩) = .error (.unknownStatus 500) ∧
    (∀ (rs : Except String (RestResponse Unit))
        (rest : List (Except String (RestResponse Unit))),
      runOnce restStore (rs :: rest) = some (restStore rs, 1)) := by
  refine ⟨?_, ?_, ?_, ?_, ?_, rfl, fun rs rest => rfl⟩
  · intro h; simp [restStore, h]
  · intro h h4; simp [restLoad, h, h4]
  · intro h h4; simp [restDelete, h, h4]
  · intro h h4; simp [restList, h, h4]
  · intro h h4; simp [restStat, h, h4]

/-- Witness for C6: every operation at the unmapped status 500. -/
theorem C6_unknown_status_one_shot_witness :
    restStore (.ok ⟨500, ()⟩) = .error (.unknownStatus 500) ∧
    restLoad (.ok ⟨500, .ok ⟨("")⟩⟩) = .error (.unknownStatus 500) ∧
    restDelete (.ok ⟨500, ()⟩) = .error (.unknownStatus 500) ∧
    restList (.ok ⟨500, .ok ⟨[]⟩⟩) = .error (.unknownStatus 500) ∧
    restStat (.ok ⟨500, .ok ⟨("k"), (""), 0, false⟩⟩) = .error (.unknownStatus 500) :=
  ⟨(C6_unknown_status_one_shot 500 (.ok ⟨("")⟩) (.ok ⟨[]⟩)
      (.ok ⟨("k"), (""), 0, false⟩)).1 (by decide),
   (C6_unknown_status_one_shot 500 (.ok ⟨("")⟩) (.ok ⟨[]⟩)
      (.ok ⟨("k"), (""), 0, false⟩)).2.1 (by decide) (by decide),
   (C6_unknown_status_one_shot 500 (.ok ⟨("")⟩) (.ok ⟨[]⟩)
      (.ok ⟨("k"), (""), 0, false⟩)).2.2.1 (by decide) (by decide),
   (C6_unknown_status_one_shot 500 (.ok ⟨("")⟩) (.ok ⟨[]⟩)
      (.ok ⟨("k"), (""), 0, false⟩)).2.2.2.1 (by decide) (by decide),
   (C6_unknown_status_one_shot 500 (.ok ⟨("")⟩) (.ok ⟨[]⟩)
      (.ok ⟨("k"), (""), 0, false⟩)).2.2.2.2.1 (by decide) (by decide)⟩

/-- C7: on status 200 with a well-formed JSON body whose modified field does
not parse as RFC3339, `Stat` returns the parse error and never a `KeyInfo`
with a defaulted time. -/
theorem C7_stat_bad_timestamp (sr : StatResponse) (e : String)
    (hp : timeParseRFC3339 sr.Modified = .error e) :
    restStat (.ok ⟨200, .ok sr⟩) = .error (.decode e) ∧
    ∀ ki, restStat (.ok ⟨200, .ok sr⟩) ≠ .ok ki := by
  constructor
  · simp [restStat, hp]
  · intro ki
    simp [restStat, hp]

/-- Witness for C7: a malformed modified field. -/
theorem C7_stat_bad_timestamp_witness :
    restStat (.ok ⟨200, .ok ⟨("k"), ("not-a-time"), 7, true⟩⟩) =
      .error (.decode ("parsing time not-a-time as RFC3339: cannot parse")) :=
  (C7_stat_bad_timestamp ⟨("k"), ("not-a-time"), 7, true⟩
    ("parsing time not-a-time as RFC3339: cannot parse") rfl).1

/-- C8: for every byte sequence, the value `Store` transports (standard
base64) is decoded back by `Load` with the same codec, so against a remote
that returns the stored text verbatim on status 200, `Load` returns exactly
the stored bytes. -/
theorem C8_store_load_roundtrip (k : String) (v : List Nat)
    (hv : ∀ b ∈ v, b < 256) :
    restLoad (.ok ⟨200, .ok ⟨(restStoreRequest k v).Value⟩⟩) = .ok v := by
  have h := b64_decode_encode v hv
  simp [restLoad, restStoreRequest, h]

/-- Witness for C8: the empty sequence and a sequence with extreme byte
values round-trip. -/
theorem C8_store_load_roundtrip_witness :
    restLoad (.ok ⟨200, .ok ⟨(restStoreRequest ("cert") []).Value⟩⟩) = .ok [] ∧
    restLoad (.ok ⟨200, .ok ⟨(restStoreRequest ("cert") [0, 255, 77, 1]).Value⟩⟩) =
      .ok [0, 255, 77, 1] :=
  ⟨C8_store_load_roundtrip ("cert") [] (by decide),
   C8_store_load_roundtrip ("cert") [0, 255, 77, 1] (by decide)⟩

/-- C9: the recursive flag only selects the request sent, and on a 200 reply
`List` returns the remote's key sequence verbatim and in order, for either
flag value — no reordering, filtering or deduplication. -/
theorem C9_list_verbatim (pfx : String) (recursive : Bool) (keys : List String) :
    restListRequest pfx recursive = ⟨pfx, recursive⟩ ∧
    restList (.ok ⟨200, .ok ⟨keys⟩⟩) = .ok keys :=
  ⟨rfl, rfl⟩

/-- The unmarshal loop always reports a nil error, whatever the tokens. -/
theorem unmarshal_no_error :
    ∀ (toks : List (String × Option String)) (r : StorageConfig),
      (unmarshalCaddyfile r toks).2 = none
  | [], _ => rfl
  | (_, none) :: rest, r => unmarshal_no_error rest r
  | (k, some v) :: rest, r => unmarshal_no_error rest (unmarshalToken r k v)

/-- C10 counterexample: the lowerCamel key has an empty switch-case body in
Go (no fallthrough), so it does not assign the ApiKey field. -/
theorem C10_counterexample :
    (unmarshalCaddyfile ⟨("e"), ("")⟩ [(("apiKey"), some ("secret"))]).1.ApiKey = ("") :=
  rfl

/-- C10 (amended): the endpoint key assigns Endpoint; of the three ApiKey
spellings only the UpperCamel one assigns ApiKey — the all-lowercase and
lowerCamel keys have empty case bodies and change nothing; every other key
leaves both fields unchanged; and the function always returns no error. -/
theorem C10_unmarshal_switch (r : StorageConfig) (v k : String) :
    unmarshalToken r ("endpoint") v = { r with Endpoint := v } ∧
    unmarshalToken r ("apikey") v = r ∧
    unmarshalToken r ("apiKey") v = r ∧
    unmarshalToken r ("ApiKey") v = { r with ApiKey := v } ∧
    (k ≠ ("endpoint") → k ≠ ("apikey") → k ≠ ("apiKey") → k ≠ ("ApiKey") →
      unmarshalToken r k v = r) ∧
    (∀ toks, (unmarshalCaddyfile r toks).2 = none) := by
  refine ⟨rfl, rfl, rfl, rfl, ?_, fun toks => unmarshal_no_error toks r⟩
  intro h1 h2 h3 h4
  simp [unmarshalToken, h1, h2, h3, h4]

/-- Witness for C10: an unrelated key changes nothing. -/
theorem C10_unmarshal_switch_witness :
    unmarshalToken ⟨("e"), ("a")⟩ ("other") ("v") = ⟨("e"), ("a")⟩ :=
  (C10_unmarshal_switch ⟨("e"), ("a")⟩ ("v") ("other")).2.2.2.2.1
    (by decide) (by decide) (by decide) (by decide)

end RestStorage
